import Mathlib

/-!
Verification of the Contract Matching & Decision Engine
(`agents/bundled_match.py`, `agents/recommendation.py`,
`agents/provider_response.py`) against its specification.

The development has two layers:

* a typed embedding of the records the engine manipulates (claims,
  contracts, match results, recommendations), with every Python
  `dict.get(...)`-with-default read modelled by `Option.getD`, used for the
  universally quantified functional claims; and

* a dynamic embedding (`PyVal`, below) of Python values with explicit
  `AttributeError` / `TypeError` propagation in `Except`, used for the
  claims about shape dispatch in the multi-contract selector and about
  exception freedom.

Python string primitives (`.strip()`, `.lower()`, `.upper()`, `.split()`,
`in`, `.replace`) are modelled on `List Char` by structural recursion so
that every definition evaluates inside the kernel; `lower`/`upper` are the
ASCII case maps (all data handled by this program is ASCII).  The UI-only
`trace` sub-records emitted by the agents are not modelled: they are copies
of inputs plus fixed prose, and no claim mentions them.
-/

/-! ### Python string primitives (ASCII model) -/

/-- ASCII uppercase/lowercase letter pairs, used to model `str.lower` and
`str.upper`. -/
def UPPER_LOWER : List (Char × Char) :=
  [('A', 'a'), ('B', 'b'), ('C', 'c'), ('D', 'd'), ('E', 'e'), ('F', 'f'),
   ('G', 'g'), ('H', 'h'), ('I', 'i'), ('J', 'j'), ('K', 'k'), ('L', 'l'),
   ('M', 'm'), ('N', 'n'), ('O', 'o'), ('P', 'p'), ('Q', 'q'), ('R', 'r'),
   ('S', 's'), ('T', 't'), ('U', 'u'), ('V', 'v'), ('W', 'w'), ('X', 'x'),
   ('Y', 'y'), ('Z', 'z')]

/-- ASCII `Char` lowering: the per-character action of Python `str.lower`. -/
def lowerChar (c : Char) : Char := (List.lookup c UPPER_LOWER).getD c

/-- ASCII `Char` uppering: the per-character action of Python `str.upper`. -/
def upperChar (c : Char) : Char :=
  (List.lookup c (UPPER_LOWER.map (fun p => (p.2, p.1)))).getD c

/-- Python `str.lower` (ASCII model). -/
def myLower (s : String) : String := String.mk (s.data.map lowerChar)

/-- Python `str.upper` (ASCII model). -/
def myUpper (s : String) : String := String.mk (s.data.map upperChar)

/-- Whitespace test used by `strip`/`split`. -/
def wsB (c : Char) : Bool := c.isWhitespace

/-- Drop leading and trailing whitespace from a character list. -/
def trimList (l : List Char) : List Char :=
  ((l.dropWhile wsB).reverse.dropWhile wsB).reverse

/-- Python `str.strip()`. -/
def myTrim (s : String) : String := String.mk (trimList s.data)

/-- Python `(x).strip().lower()`, the normalisation applied to service
labels in `bundled_match.py`. -/
def normalizeLabel (s : String) : String := myLower (myTrim s)

/-- Python `a or b` restricted to strings (`""` is falsy). -/
def strOr (a b : String) : String := if a = "" then b else a

/-- Is `n` a prefix of `h`? (helper for the substring test). -/
def prefLe : List Char → List Char → Bool
  | [], _ => true
  | _ :: _, [] => false
  | a :: as, b :: bs => a == b && prefLe as bs

/-- Is `n` a contiguous sublist of `h`? (helper for the substring test). -/
def subLe (n : List Char) : List Char → Bool
  | [] => prefLe n []
  | b :: t => prefLe n (b :: t) || subLe n t

/-- Python substring containment `a in c` on strings. -/
def inStr (a c : String) : Bool := subLe a.data c.data

/-- Whitespace splitter: Python `str.split()` (no argument), which drops
empty fields. `acc` holds the current field reversed. -/
def splitWsAux : List Char → List Char → List String
  | [], acc => match acc with
    | [] => []
    | _ => [String.mk acc.reverse]
  | c :: rest, acc =>
    if wsB c then
      match acc with
      | [] => splitWsAux rest []
      | _ => String.mk acc.reverse :: splitWsAux rest []
    else splitWsAux rest (c :: acc)

/-- Python `str.split()` on a character list. -/
def splitWs (l : List Char) : List String := splitWsAux l []

/-! ### `bundled_match.py`: synonym table and token/alias matching -/

/-- `SERVICE_SYNONYMS` (bundled_match.py lines 4-7): canonical service name
to synonym set.  Python stores the synonyms as a `set`; only membership is
ever used, so a list is a faithful model. -/
def SERVICE_SYNONYMS : List (String × List String) :=
  [("physical therapy",
    ["pt", "pt rehab", "therapy", "rehab", "physiotherapy", "post-op rehab"]),
   ("influenza vaccine",
    ["flu shot", "flu vaccine", "influenza immunization"])]

/-- `_tokens` (bundled_match.py lines 9-10):
`[t for t in (s or "").lower().replace("_", " ").split() if t]`.
`split()` already drops empty fields, so the trailing filter is the
identity. -/
def _tokens (s : String) : List String :=
  splitWs (((strOr s "").data.map lowerChar).map (fun c => if c = '_' then ' ' else c))

/-- The per-(alias, covered-label) test of `_service_in_bundle`
(bundled_match.py line 27):
`a in c or c in a or (set(_tokens(a)) & set(_tokens(c)))`. -/
def aliasHit (a c : String) : Bool :=
  inStr a c || inStr c a || (_tokens a).any (fun t => (_tokens c).contains t)

/-- Alias accumulation of `_service_in_bundle` (bundled_match.py lines
19-22): start from `{s}` and add every synonym group that contains `s`
(as canonical name or synonym).  Python uses a set; only membership is used
downstream, so a list with possible duplicates is a faithful model. -/
def aliasesOf (s : String) : List String :=
  s :: SERVICE_SYNONYMS.foldr
    (fun g acc => if s = g.1 || g.2.contains s then g.1 :: (g.2 ++ acc) else acc) []

/-- Core of the covered-service scan (bundled_match.py lines 24-30): keep
every normalised covered label hit by at least one alias (the Python
`break` makes the inner loop an existence test), and report whether any
matched.  `len(matched) > 0` is rendered as `!matched.isEmpty`. -/
def svcMatchCore (s : String) (covered_norm : List String) : Bool × List String :=
  let matched := covered_norm.filter (fun c => (aliasesOf s).any (fun a => aliasHit a c))
  (!matched.isEmpty, matched)

/-- `_service_in_bundle` (bundled_match.py lines 12-30) for a well-typed
covered list (each entry a string): normalise the service label, return
`(False, [])` when it is empty, otherwise scan the normalised covered
labels.  Line 23 `str(c or "").strip().lower()` is
`normalizeLabel (strOr c "")` for a string `c`. -/
def _service_in_bundle (service : String) (covered : List String) : Bool × List String :=
  let s := normalizeLabel (strOr service "")
  if s = "" then (false, [])
  else svcMatchCore s (covered.map (fun c => normalizeLabel (strOr c "")))

/-! ### Typed data model (§3 of the spec)

`Option.none` models an absent key (Python `dict.get` default applies);
a present-but-`None` Python value behaves identically to an absent key in
every read path the engine uses, so it needs no separate representation
here.  Arbitrarily mis-typed values are handled by the dynamic `PyVal`
layer below. -/

structure Claim where
  service : Option String
  cpt : Option String

structure Plan where
  payer : Option String
  plan_id : Option String
  product_type : Option String

structure ProviderAgreement where
  provider_contract_id : Option String

structure Episode where
  episode_code : Option String
  covered_services : Option (List String)
  covered_cpts : Option (List String)

structure Contract where
  plan : Option Plan
  provider_agreement : Option ProviderAgreement
  episode : Option Episode

def emptyPlan : Plan := ⟨Option.none, Option.none, Option.none⟩

def emptyProviderAgreement : ProviderAgreement := ⟨Option.none⟩

def emptyEpisode : Episode := ⟨Option.none, Option.none, Option.none⟩

/-- The `debug` sub-record of a parsed match result
(bundled_match.py lines 75-81). -/
structure DebugInfo where
  covered_services : List String
  covered_cpts : List String
  svc_match : Bool
  cpt_match : Bool
  svc_matched_terms : List String

/-- The parsed match result (bundled_match.py lines 63-82).  Fields that a
consumer reads with `dict.get` (and that the synthetic error result of the
selector omits) are `Option`s. -/
structure MatchResult where
  status : Option String
  plan_name : Option String
  plan_id : Option String
  product_type : Option String
  contract_id : Option String
  episode_code : Option String
  service : Option String
  cpt : Option String
  is_in_bundle : Bool
  matched_terms : List String
  evidence : Option String
  debug : DebugInfo

def emptyDebug : DebugInfo := ⟨[], [], false, false, []⟩

/-- `_evaluate_against_contract` (bundled_match.py lines 32-108) on
well-typed records.  Every `get` with default becomes `Option.getD`;
`covered_cpts := [str(c) for c in (... or [])]` is the identity on a list
of strings; `bool(cpt and cpt in covered_cpts)` requires a non-empty CPT. -/
def _evaluate_against_contract (pt_claim : Claim) (contract : Contract) : MatchResult :=
  let plan := contract.plan.getD emptyPlan
  let prov := contract.provider_agreement.getD emptyProviderAgreement
  let ep := contract.episode.getD emptyEpisode
  let plan_name := plan.payer.getD ""
  let plan_id := plan.plan_id.getD ""
  let product_type := plan.product_type.getD ""
  let contract_id := prov.provider_contract_id.getD "UNKNOWN"
  let episode_code := ep.episode_code.getD ""
  let covered_services := ep.covered_services.getD []
  let covered_cpts := ep.covered_cpts.getD []
  let service := normalizeLabel (pt_claim.service.getD "")
  let cpt := pt_claim.cpt.getD ""
  let cpt_in := (cpt != "") && covered_cpts.contains cpt
  let sv := _service_in_bundle service covered_services
  let svc_in := sv.1
  let svc_matched := sv.2
  let is_in := cpt_in || svc_in
  let matched_terms := svc_matched ++ (if cpt_in then [cpt] else [])
  { status := some "ok"
    plan_name := some plan_name
    plan_id := some plan_id
    product_type := some product_type
    contract_id := some contract_id
    episode_code := some episode_code
    service := some service
    cpt := some cpt
    is_in_bundle := is_in
    matched_terms := matched_terms
    evidence := some ("Matched by CPT or service under " ++ episode_code ++ ".")
    debug := ⟨covered_services, covered_cpts, svc_in, cpt_in, svc_matched⟩ }




/-! ### `recommendation.py`: the Decision Mapper -/

/-- The recommendation record (recommendation.py lines 5-45); the UI-only
`trace` entry is omitted.  Confidence is the literal constant `0.9`,
modelled as a rational. -/
structure Recommendation where
  decision : String
  reason : String
  evidence : Option String
  matched_terms : List String
  contract_id : Option String
  plan_id : Option String
  plan_name : Option String
  product_type : Option String
  episode_code : Option String
  confidence : ℚ

/-- `recommendation_agent` (recommendation.py lines 3-58).  The `claim`
argument is only echoed into the omitted trace but is kept for signature
fidelity.  `matchRes` renders the Python parameter `match` (a Lean
keyword). -/
def recommendation_agent (claim : Claim) (matchRes : MatchResult) : Recommendation :=
  if matchRes.status = some "skipped" then
    { decision := "PAY"
      reason := "No applicable bundled episode for this plan/claim."
      evidence := matchRes.evidence
      matched_terms := []
      contract_id := matchRes.contract_id
      plan_id := matchRes.plan_id
      plan_name := matchRes.plan_name
      product_type := matchRes.product_type
      episode_code := matchRes.episode_code
      confidence := (9 : ℚ) / 10 }
  else if matchRes.is_in_bundle then
    { decision := "REJECT"
      reason := "Service included in the episode bundle; bill under the episode."
      evidence := matchRes.evidence
      matched_terms := matchRes.matched_terms
      contract_id := matchRes.contract_id
      plan_id := matchRes.plan_id
      plan_name := matchRes.plan_name
      product_type := matchRes.product_type
      episode_code := matchRes.episode_code
      confidence := (9 : ℚ) / 10 }
  else
    { decision := "PAY"
      reason := "Service not included in covered bundle terms."
      evidence := matchRes.evidence
      matched_terms := matchRes.matched_terms
      contract_id := matchRes.contract_id
      plan_id := matchRes.plan_id
      plan_name := matchRes.plan_name
      product_type := matchRes.product_type
      episode_code := matchRes.episode_code
      confidence := (9 : ℚ) / 10 }

/-! ### `provider_response.py`: the Response Drafter -/

/-- `VALID` (provider_response.py line 3). -/
def VALID : List String := ["PAY", "REJECT", "DENY", "ADJUST"]

/-- `_list_to_english` (provider_response.py lines 5-11) on a list of
strings: drop blank entries, then join with commas and a final ", and ". -/
def joinEnglish : List String → String
  | [] => ""
  | [x] => x
  | [x, y] => x ++ ", and " ++ y
  | x :: rest => x ++ ", " ++ joinEnglish rest

def _list_to_english (items : List String) : String :=
  joinEnglish (items.filter (fun i => !(myTrim i == "")))

/-- The recommendation record as the Response Drafter reads it: every field
is accessed with `reco.get(...)`, so every field is optional.  `outcome` is
the legacy fallback key read on provider_response.py line 14. -/
structure Reco where
  decision : Option String
  outcome : Option String
  reason : Option String
  evidence : Option String
  matched_terms : List String
  contract_id : Option String
  plan_id : Option String
  plan_name : Option String
  product_type : Option String
  episode_code : Option String

/-- Output of the Response Drafter (provider_response.py lines 16-22 for
the error shape, line 84 for the ok shape); the trace is omitted and the
echoed `reco` of the error shape is kept as an optional field. -/
structure DrafterResult where
  status : String
  reason : Option String
  message : Option String
  decision : Option String
  draft : Option String
  next_action : Option String
  reco : Option Reco

/-- The effective decision string of provider_response.py line 14:
`(decision or reco.get("decision") or reco.get("outcome") or "").upper()`.
`None` and `""` are exactly the falsy values that can occur, so the chain
is a `strOr` chain over `Option.getD ""`. -/
def effectiveDecision (reco : Reco) (decision : Option String) : String :=
  myUpper (strOr (decision.getD "")
    (strOr (reco.decision.getD "") (strOr (reco.outcome.getD "") "")))

/-- `provider_response_agent` (provider_response.py lines 13-96).  The
Python default `decision=None` is passed explicitly at call sites. -/
def provider_response_agent (reco : Reco) (decision : Option String) : DrafterResult :=
  let d := effectiveDecision reco decision
  if !(VALID.contains d) then
    { status := "error"
      reason := some "missing_or_invalid_decision"
      message := some "Recommendation did not include a valid decision (PAY/REJECT/DENY/ADJUST)."
      decision := if d = "" then Option.none else some d
      draft := Option.none
      next_action := Option.none
      reco := some reco }
  else
    let plan_name := strOr (reco.plan_name.getD "") "the member\x27s health plan"
    let plan_id := strOr (reco.plan_id.getD "") "the member’s plan"
    let product := strOr (reco.product_type.getD "") "PPO"
    let episode_code := strOr (reco.episode_code.getD "") "the bundled episode"
    let contract_id := strOr (reco.contract_id.getD "") "the applicable provider agreement"
    let ev := myTrim (strOr (reco.evidence.getD "") "")
    let terms := _list_to_english reco.matched_terms
    let short_reason := myTrim (strOr (reco.reason.getD "") "")
    if d = "PAY" then
      let draft := "Approved for payment. The billed service is not part of the bundled coverage "
        ++ "defined under " ++ plan_name ++ " " ++ product ++ " (Plan " ++ plan_id ++ "). "
      let draft := if short_reason != "" then draft ++ short_reason ++ " " else draft
      let draft := if ev != "" then draft ++ "Supporting note: " ++ ev else draft
      { status := "ok", reason := Option.none, message := Option.none, decision := some d
        draft := some draft
        next_action := some "Queue for payment and notify provider of approval."
        reco := Option.none }
    else if d = "REJECT" || d = "DENY" then
      let draft := "This claim has been denied because the billed service is included in "
        ++ episode_code ++ " under " ++ plan_name ++ " " ++ product ++ " (Plan " ++ plan_id
        ++ ") and provider agreement " ++ contract_id ++ ". "
        ++ "Per contract terms, services that are part of the episode should not be billed separately. "
        ++ "Please bill this service under the episode claim or submit a corrected claim."
      let draft := if terms != "" then draft ++ " Matched bundle terms/CPTs: " ++ terms ++ "." else draft
      let draft := if ev != "" then draft ++ " Supporting note: " ++ ev else draft
      { status := "ok", reason := Option.none, message := Option.none, decision := some d
        draft := some draft
        next_action := some ("Return claim to provider with denial explanation and contract reference. "
          ++ "Advise resubmission under the bundled episode (or corrected billing).")
        reco := Option.none }
    else
      let draft := "This service falls under " ++ episode_code ++ " for " ++ plan_name
        ++ " (Plan " ++ plan_id ++ "). "
        ++ "The claim will be adjusted per contract terms and allowed amounts for the bundled episode."
      let draft := if terms != "" then draft ++ " Relevant matched terms/CPTs: " ++ terms ++ "." else draft
      let draft := if ev != "" then draft ++ " Supporting note: " ++ ev else draft
      { status := "ok", reason := Option.none, message := Option.none, decision := some d
        draft := some draft
        next_action := some "Apply contract adjustment and notify provider of revised allowed amount."
        reco := Option.none }




/-! ### Dynamic layer: Python values with exceptions

The multi-contract selector dispatches on the runtime shape of its
`contracts` argument (`Union[Dict, List[Dict]]`), and the never-throws
claim quantifies over malformed records, so these functions are modelled
over a dynamic value type with explicit `AttributeError`/`TypeError`
propagation. -/

inductive PyVal where
  | noneV : PyVal
  | boolV (b : Bool) : PyVal
  | intV (n : Int) : PyVal
  | strV (s : String) : PyVal
  | listV (elems : List PyVal) : PyVal
  | dictV (entries : List (String × PyVal)) : PyVal

inductive PyErr where
  | attributeError : PyErr
  | typeError : PyErr

/-- Python truthiness for the values of the model. -/
def truthy : PyVal → Bool
  | .noneV => false
  | .boolV b => b
  | .intV n => n != 0
  | .strV s => s != ""
  | .listV l => !l.isEmpty
  | .dictV es => !es.isEmpty

/-- Python `a or b`. -/
def pyOr (a b : PyVal) : PyVal := if truthy a then a else b

/-- Python `v.get(k, d)`: dictionaries look the key up, every other value
raises `AttributeError` (no `get` attribute). -/
def pyGet (v : PyVal) (k : String) (d : PyVal) : Except PyErr PyVal :=
  match v with
  | .dictV es => .ok ((List.lookup k es).getD d)
  | _ => .error .attributeError

/-- Total dictionary read used on values that are known to be result
dictionaries (the selector’s ranking key, audit projections). -/
def pyGetD (v : PyVal) (k : String) (d : PyVal) : PyVal :=
  match v with
  | .dictV es => (List.lookup k es).getD d
  | _ => d

/- Python `repr` for the model’s values (ASCII strings rendered with
single quotes and no escaping, which is exact for the quote-free strings
this program handles). -/
mutual
def pyRepr : PyVal → String
  | .noneV => "None"
  | .boolV true => "True"
  | .boolV false => "False"
  | .intV n => toString n
  | .strV s => "\x27" ++ s ++ "\x27"
  | .listV l => "[" ++ pyReprList l ++ "]"
  | .dictV es => "\x7b" ++ pyReprDict es ++ "\x7d"
def pyReprList : List PyVal → String
  | [] => ""
  | [x] => pyRepr x
  | x :: rest => pyRepr x ++ ", " ++ pyReprList rest
def pyReprDict : List (String × PyVal) → String
  | [] => ""
  | [(k, v)] => "\x27" ++ k ++ "\x27: " ++ pyRepr v
  | (k, v) :: rest => "\x27" ++ k ++ "\x27: " ++ pyRepr v ++ ", " ++ pyReprDict rest
end

/-- Python `str(v)`: identity on strings, `repr` otherwise (exact for the
scalar values this program stringifies). -/
def pyStr (v : PyVal) : String :=
  match v with
  | .strV s => s
  | v => pyRepr v

/-- Python iteration `for x in v`: lists yield elements, strings yield
their characters, dictionaries their keys; other values raise
`TypeError`. -/
def iterPy : PyVal → Except PyErr (List PyVal)
  | .listV l => .ok l
  | .strV s => .ok (s.data.map (fun c => .strV (String.mk [c])))
  | .dictV es => .ok (es.map (fun p => .strV p.1))
  | _ => .error .typeError

/-- Python `v.strip().lower()`: only strings have `strip`, every other
value raises `AttributeError`. -/
def pyStripLower : PyVal → Except PyErr String
  | .strV s => .ok (normalizeLabel s)
  | _ => .error .attributeError

/-- Sequential effectful map: the semantics of a Python list comprehension
whose body may raise. -/
def mapMEx (f : α → Except PyErr β) : List α → Except PyErr (List β)
  | [] => .ok []
  | a :: t => do
    let b ← f a
    let bs ← mapMEx f t
    .ok (b :: bs)

/-- `_service_in_bundle` (bundled_match.py lines 12-30) on a dynamic
covered-services value.  The empty-label early return precedes the
iteration, exactly as in the source; line 23 coerces each element with
`str(c or "")` before normalising. -/
def _service_in_bundlePy (service : String) (covered : PyVal) :
    Except PyErr (Bool × List String) := do
  let s := normalizeLabel (strOr service "")
  if s = "" then .ok (false, [])
  else do
    let celems ← iterPy covered
    let covered_norm := celems.map (fun c => normalizeLabel (pyStr (pyOr c (.strV ""))))
    .ok (svcMatchCore s covered_norm)

/-- `_evaluate_against_contract` (bundled_match.py lines 32-108) on dynamic
values, propagating the exceptions Python would raise on mis-typed
sections.  The returned dictionary lists the keys of the parsed result in
source order; the UI trace is omitted. -/
def _evaluate_against_contractPy (pt_claim contract : PyVal) : Except PyErr PyVal := do
  let plan ← pyGet contract "plan" (.dictV [])
  let prov ← pyGet contract "provider_agreement" (.dictV [])
  let ep ← pyGet contract "episode" (.dictV [])
  let plan_name ← pyGet plan "payer" (.strV "")
  let plan_id ← pyGet plan "plan_id" (.strV "")
  let product_type ← pyGet plan "product_type" (.strV "")
  let contract_id ← pyGet prov "provider_contract_id" (.strV "UNKNOWN")
  let episode_code ← pyGet ep "episode_code" (.strV "")
  let covered_services_raw ← pyGet ep "covered_services" (.listV [])
  let covered_services := pyOr covered_services_raw (.listV [])
  let covered_cpts_raw ← pyGet ep "covered_cpts" (.listV [])
  let cc ← iterPy (pyOr covered_cpts_raw (.listV []))
  let covered_cpts := cc.map pyStr
  let service_raw ← pyGet pt_claim "service" .noneV
  let service ← pyStripLower (pyOr service_raw (.strV ""))
  let cpt_raw ← pyGet pt_claim "cpt" .noneV
  let cpt := pyStr (pyOr cpt_raw (.strV ""))
  let cpt_in := (cpt != "") && covered_cpts.contains cpt
  let sv ← _service_in_bundlePy service covered_services
  let svc_in := sv.1
  let svc_matched := sv.2
  let is_in := cpt_in || svc_in
  let matched_terms := svc_matched ++ (if cpt_in then [cpt] else [])
  .ok (.dictV
    [("status", .strV "ok"),
     ("plan_name", plan_name),
     ("plan_id", plan_id),
     ("product_type", product_type),
     ("contract_id", contract_id),
     ("episode_code", episode_code),
     ("service", .strV service),
     ("cpt", .strV cpt),
     ("is_in_bundle", .boolV is_in),
     ("matched_terms", .listV (matched_terms.map .strV)),
     ("evidence", .strV ("Matched by CPT or service under " ++ pyStr episode_code ++ ".")),
     ("debug", .dictV
       [("covered_services", covered_services),
        ("covered_cpts", .listV (covered_cpts.map .strV)),
        ("svc_match", .boolV svc_in),
        ("cpt_match", .boolV cpt_in),
        ("svc_matched_terms", .listV (svc_matched.map .strV))])])

/-! ### The multi-contract selector (bundled_match.py lines 110-147) -/

/-- Strict `<` on the sort key `(is_in_bundle, len(matched_terms))`:
Python compares the booleans as `False < True`, then the lengths. -/
def rankLtB (a b : Bool × Nat) : Bool :=
  (!a.1 && b.1) || (a.1 == b.1 && a.2 < b.2)

/-- The sort key of bundled_match.py line 145:
`(r.get("is_in_bundle", False), len(r.get("matched_terms", [])))`.
The selector only ranks dictionaries produced by the evaluator, whose
`is_in_bundle` is always a boolean and whose `matched_terms` is always a
list, so the coercions on foreign shapes are immaterial. -/
def pyRank (r : PyVal) : Bool × Nat :=
  ((match pyGetD r "is_in_bundle" (.boolV false) with
    | .boolV b => b
    | _ => false),
   (match pyGetD r "matched_terms" (.listV []) with
    | .listV l => l.length
    | _ => 0))

/-- One step of a stable descending insertion sort on the rank: insert `x`
before the first element it is not strictly below.  Extensionally equal to
Python’s stable `list.sort(key=..., reverse=True)`, which keeps
equal-ranked elements in their original order. -/
def insertDesc (x : PyVal) : List PyVal → List PyVal
  | [] => [x]
  | y :: ys => if rankLtB (pyRank x) (pyRank y) then y :: insertDesc x ys else x :: y :: ys

/-- Stable descending sort by rank (bundled_match.py line 145). -/
def sortDesc (l : List PyVal) : List PyVal := l.foldr insertDesc []

/-- The synthetic no-contracts result (bundled_match.py lines 125-132);
the trace is omitted. -/
def noContractsResult : PyVal :=
  .dictV
    [("status", .strV "error"),
     ("reason", .strV "no_contracts"),
     ("is_in_bundle", .boolV false),
     ("contract_id", .strV "UNKNOWN"),
     ("matched_terms", .listV []),
     ("evidence", .strV "No contracts supplied.")]

/-- `if not results: ... ; results.sort(...); return results[0]`
(bundled_match.py lines 124-146). -/
def pickBest (results : List PyVal) : PyVal :=
  if results.isEmpty then noContractsResult
  else (sortDesc results).headD .noneV

/-- `bundled_match_agent` (bundled_match.py lines 110-147): a dict carrying
a top-level `"contract_id"` key is treated as a single flat contract; any
other dict is treated as named contracts (evaluate its values); any other
value `x` is iterated as `(x or [])`. -/
def bundled_match_agent (pt_claim contracts : PyVal) : Except PyErr PyVal :=
  match contracts with
  | .dictV es =>
    if (List.lookup "contract_id" es).isSome then
      _evaluate_against_contractPy pt_claim (.dictV es)
    else do
      let results ← mapMEx (_evaluate_against_contractPy pt_claim) (es.map Prod.snd)
      .ok (pickBest results)
  | other => do
    let cs ← iterPy (pyOr other (.listV []))
    let results ← mapMEx (_evaluate_against_contractPy pt_claim) cs
    .ok (pickBest results)



/-! ### Injection of well-typed records into the dynamic layer -/

/-- Entry list for an optional key: absent `Option`s produce no key at
all (so `dict.get` applies its default). -/
def optEntry (k : String) (v : Option PyVal) : List (String × PyVal) :=
  match v with
  | Option.none => []
  | some x => [(k, x)]

def Plan.toPy (p : Plan) : PyVal :=
  .dictV (optEntry "payer" (p.payer.map .strV)
    ++ optEntry "plan_id" (p.plan_id.map .strV)
    ++ optEntry "product_type" (p.product_type.map .strV))

def ProviderAgreement.toPy (p : ProviderAgreement) : PyVal :=
  .dictV (optEntry "provider_contract_id" (p.provider_contract_id.map .strV))

def Episode.toPy (e : Episode) : PyVal :=
  .dictV (optEntry "episode_code" (e.episode_code.map .strV)
    ++ optEntry "covered_services" (e.covered_services.map (fun l => .listV (l.map .strV)))
    ++ optEntry "covered_cpts" (e.covered_cpts.map (fun l => .listV (l.map .strV))))

def Contract.toPy (k : Contract) : PyVal :=
  .dictV (optEntry "plan" (k.plan.map Plan.toPy)
    ++ optEntry "provider_agreement" (k.provider_agreement.map ProviderAgreement.toPy)
    ++ optEntry "episode" (k.episode.map Episode.toPy))

def Claim.toPy (c : Claim) : PyVal :=
  .dictV (optEntry "service" (c.service.map .strV) ++ optEntry "cpt" (c.cpt.map .strV))

/-- The dictionary the dynamic evaluator returns for a typed input,
phrased over the typed `MatchResult`. -/
def matchResultToPy (r : MatchResult) : PyVal :=
  .dictV
    [("status", .strV (r.status.getD "")),
     ("plan_name", .strV (r.plan_name.getD "")),
     ("plan_id", .strV (r.plan_id.getD "")),
     ("product_type", .strV (r.product_type.getD "")),
     ("contract_id", .strV (r.contract_id.getD "")),
     ("episode_code", .strV (r.episode_code.getD "")),
     ("service", .strV (r.service.getD "")),
     ("cpt", .strV (r.cpt.getD "")),
     ("is_in_bundle", .boolV r.is_in_bundle),
     ("matched_terms", .listV (r.matched_terms.map .strV)),
     ("evidence", .strV (r.evidence.getD "")),
     ("debug", .dictV
       [("covered_services", .listV (r.debug.covered_services.map .strV)),
        ("covered_cpts", .listV (r.debug.covered_cpts.map .strV)),
        ("svc_match", .boolV r.debug.svc_match),
        ("cpt_match", .boolV r.debug.cpt_match),
        ("svc_matched_terms", .listV (r.debug.svc_matched_terms.map .strV))])]

/-- What `contract.get("plan", {})` yields on an injected contract. -/
def planPyOf (k : Contract) : PyVal :=
  match k.plan with
  | Option.none => .dictV []
  | some p => Plan.toPy p

/-- What `contract.get("provider_agreement", {})` yields on an injected
contract. -/
def provPyOf (k : Contract) : PyVal :=
  match k.provider_agreement with
  | Option.none => .dictV []
  | some p => ProviderAgreement.toPy p

/-- What `contract.get("episode", {})` yields on an injected contract. -/
def epPyOf (k : Contract) : PyVal :=
  match k.episode with
  | Option.none => .dictV []
  | some e => Episode.toPy e

/-! ### Spec-side definitions for the claims

These are the only definitions written from the specification’s wording
rather than from the source; each serves as one side of a refinement
comparison. -/

/-- Accessor for the covered service labels of a contract (episode section
defaulted, `None`/absent list defaulted to `[]`). -/
def coveredServicesOf (k : Contract) : List String :=
  (k.episode.getD emptyEpisode).covered_services.getD []

/-- Accessor for the covered CPT codes of a contract. -/
def coveredCptsOf (k : Contract) : List String :=
  (k.episode.getD emptyEpisode).covered_cpts.getD []

/-- Alias expansion as worded in §4.1 of the spec: the singleton of the
label, unless the label equals a canonical name or one of its synonyms, in
which case the canonical name and all its synonyms are added; the empty
label expands to the empty set. -/
def specExpandAliases (label : String) : List String :=
  if label = "" then []
  else label :: SERVICE_SYNONYMS.foldr
    (fun g acc => if label = g.1 || g.2.contains label then g.1 :: (g.2 ++ acc) else acc) []

/-- The claim C1 service-side relation, as worded: the normalised service
label, expanded through the alias table, stands in a
substring-either-direction or non-empty-token-intersection relation with
at least one normalised covered service label. -/
def specServiceMatch (c : Claim) (k : Contract) : Bool :=
  ((coveredServicesOf k).map normalizeLabel).any
    (fun cn => (specExpandAliases (normalizeLabel (c.service.getD ""))).any
      (fun a => aliasHit a cn))

/-- The claim C1 CPT-side relation, as worded: the claim’s stringified CPT
(missing values become the empty string, §4.2 step 1) is an exact member
of the contract’s covered-CPT list. -/
def specCptMember (c : Claim) (k : Contract) : Bool :=
  (coveredCptsOf k).contains (c.cpt.getD "")

/-- The right-hand side of claim C1 exactly as stated. -/
def claimC1rhs (c : Claim) (k : Contract) : Bool :=
  specCptMember c k || specServiceMatch c k

/-- The selection rule as worded in the spec: the earliest result (in
evaluation order) whose `(is_in_bundle, count(matched_terms))` pair is
maximal, both components descending — any later element survives only if
the earlier one is strictly below the best of the rest. -/
def firstMaxBy : List PyVal → Option PyVal
  | [] => Option.none
  | x :: xs =>
    match firstMaxBy xs with
    | Option.none => some x
    | some m => if rankLtB (pyRank x) (pyRank m) then some m else some x

/-- Field projection through the dynamic evaluator’s `Except` layer, used
to exhibit concrete counterexamples. -/
def resField (e : Except PyErr PyVal) (k : String) : Option PyVal :=
  match e with
  | .ok (.dictV es) => List.lookup k es
  | _ => Option.none

/-! ### Concrete records used by witnesses and counterexamples -/

/-- A claim with no service and no CPT. -/
def emptyClaim : Claim := ⟨Option.none, Option.none⟩

/-- A contract whose covered-CPT list contains the empty string and whose
covered-service list is empty. -/
def emptyCptContract : Contract :=
  ⟨Option.none, Option.none, some ⟨Option.none, some [], some [""]⟩⟩

/-- A claim whose CPT is present but stringifies to the empty string. -/
def blankCptClaim : Claim := ⟨some "x-ray", some ""⟩

/-- A fully populated contract covering physical therapy and CPT 97110. -/
def ptContract : Contract :=
  ⟨some ⟨some "Acme", some "P1", some "PPO"⟩, some ⟨some "C-1"⟩,
   some ⟨some "EP1", some ["physical therapy"], some ["97110"]⟩⟩

/-- A typed claim for physical therapy with no CPT. -/
def ptClaim : Claim := ⟨some "pt", Option.none⟩

/-- The dynamic form of a claim for physical therapy with no CPT. -/
def ptClaimPy : PyVal := .dictV [("service", .strV "pt")]

/-- A covering contract with only the label `physical therapy`. -/
def ptOnlyContract : Contract :=
  ⟨Option.none, Option.none, some ⟨Option.none, some ["physical therapy"], Option.none⟩⟩

/-- A covering contract with only the label `pt rehab`. -/
def ptRehabContract : Contract :=
  ⟨Option.none, Option.none, some ⟨Option.none, some ["pt rehab"], Option.none⟩⟩

/-- A match result with status `skipped` and a non-empty matched-terms
list, as an upstream eligibility check could hand to the mapper. -/
def skippedResult : MatchResult :=
  { status := some "skipped"
    plan_name := some "Acme"
    plan_id := some "P1"
    product_type := some "PPO"
    contract_id := some "C-1"
    episode_code := some "EP1"
    service := some "physical therapy"
    cpt := some "97110"
    is_in_bundle := true
    matched_terms := ["physical therapy"]
    evidence := some "Matched by CPT or service under EP1."
    debug := emptyDebug }

/-- A non-skipped in-bundle match result. -/
def okResult : MatchResult :=
  { status := some "ok"
    plan_name := some "Acme"
    plan_id := some "P1"
    product_type := some "PPO"
    contract_id := some "C-1"
    episode_code := some "EP1"
    service := some "physical therapy"
    cpt := some "97110"
    is_in_bundle := true
    matched_terms := ["physical therapy", "97110"]
    evidence := some "Matched by CPT or service under EP1."
    debug := emptyDebug }

/-- A recommendation record whose `decision` key is absent but whose
legacy `outcome` key holds a valid decision. -/
def outcomeOnlyReco : Reco :=
  ⟨Option.none, some "pay", Option.none, Option.none, [], Option.none, Option.none,
   Option.none, Option.none, Option.none⟩

/-- A recommendation record with no decision information at all. -/
def blankReco : Reco :=
  ⟨Option.none, Option.none, Option.none, Option.none, [], Option.none, Option.none,
   Option.none, Option.none, Option.none⟩

/-! ## Lemmas -/

/-! ### Basic monad / option / string facts -/

@[simp]
lemma exceptBind_ok (a : α) (f : α → Except PyErr β) :
    ((Except.ok a : Except PyErr α) >>= f) = f a := rfl

@[simp]
lemma exceptBind_error (e : PyErr) (f : α → Except PyErr β) :
    ((Except.error e : Except PyErr α) >>= f) = Except.error e := rfl

@[simp]
lemma strOr_empty_right (s : String) : strOr s "" = s := by
  by_cases h : s = "" <;> simp [strOr, h]

lemma lookupMem [BEq α] [LawfulBEq α] {l : List (α × β)} {a : α} {b : β}
    (h : List.lookup a l = some b) : (a, b) ∈ l := by
  induction l with
  | nil => simp [List.lookup] at h
  | cons p t ih =>
    rw [List.lookup_cons] at h
    by_cases hk : a == p.1
    · rw [hk] at h
      injection h with h
      have ha : a = p.1 := eq_of_beq hk
      have hab : (a, b) = p := by rw [ha, ← h]
      rw [hab]
      exact List.mem_cons_self p t
    · rw [Bool.not_eq_true] at hk
      rw [hk] at h
      exact List.mem_cons_of_mem p (ih h)

/-- All entries of the case table: values are not keys, and neither keys
nor values are whitespace or the underscore. -/
lemma ulFacts :
    UPPER_LOWER.all
      (fun p => (List.lookup p.2 UPPER_LOWER).isNone && !wsB p.1 && !wsB p.2) = true := by
  decide

lemma lowerChar_idem (c : Char) : lowerChar (lowerChar c) = lowerChar c := by
  unfold lowerChar
  cases h : List.lookup c UPPER_LOWER with
  | none => simp [h]
  | some l =>
    have hm : (c, l) ∈ UPPER_LOWER := lookupMem h
    have hf := (List.all_eq_true.mp ulFacts) (c, l) hm
    simp only [Bool.and_eq_true, Option.isNone_iff_eq_none] at hf
    simp [h, hf.1.1]

lemma wsB_lowerChar (c : Char) : wsB (lowerChar c) = wsB c := by
  unfold lowerChar
  cases h : List.lookup c UPPER_LOWER with
  | none => simp [h]
  | some l =>
    have hm : (c, l) ∈ UPPER_LOWER := lookupMem h
    have hf := (List.all_eq_true.mp ulFacts) (c, l) hm
    simp only [Bool.and_eq_true, Bool.not_eq_true', Option.isNone_iff_eq_none] at hf
    simp [h, hf.1.2, hf.2]

lemma map_lowerChar_idem (l : List Char) :
    (l.map lowerChar).map lowerChar = l.map lowerChar := by
  induction l with
  | nil => rfl
  | cons a t ih => simp [ih, lowerChar_idem]

lemma dropWhile_idem (p : α → Bool) (l : List α) :
    List.dropWhile p (List.dropWhile p l) = List.dropWhile p l := by
  induction l with
  | nil => rfl
  | cons a t ih =>
    by_cases h : p a
    · simp [List.dropWhile_cons, h, ih]
    · simp [List.dropWhile_cons, h]

lemma dropWhile_length_le (p : α → Bool) (l : List α) :
    (List.dropWhile p l).length ≤ l.length := by
  induction l with
  | nil => simp
  | cons a t ih =>
    by_cases h : p a
    · simp only [List.dropWhile_cons, h, if_pos]
      exact Nat.le_succ_of_le ih
    · simp [List.dropWhile_cons, h]

lemma dropWhile_eq_self_of_pref (p : α → Bool) {l l' : List α}
    (h : List.dropWhile p l = l) (hp : l' <+: l) : List.dropWhile p l' = l' := by
  cases l' with
  | nil => rfl
  | cons x t' =>
    obtain ⟨s, hs⟩ := hp
    subst hs
    by_cases hx : p x
    · exfalso
      rw [List.cons_append, List.dropWhile_cons, if_pos hx] at h
      have := dropWhile_length_le p (t' ++ s)
      rw [h] at this
      simp at this
    · simp [List.dropWhile_cons, hx]

lemma dropWhile_map_lowerChar (l : List Char) :
    List.dropWhile wsB (l.map lowerChar) = (List.dropWhile wsB l).map lowerChar := by
  induction l with
  | nil => rfl
  | cons a t ih =>
    by_cases h : wsB a
    · have h2 : wsB (lowerChar a) = true := by rw [wsB_lowerChar]; exact h
      simp [List.dropWhile_cons, h, h2, ih]
    · have h2 : ¬ wsB (lowerChar a) = true := by rw [wsB_lowerChar]; exact h
      simp [List.dropWhile_cons, h, h2]

lemma trimList_map_lowerChar (l : List Char) :
    trimList (l.map lowerChar) = (trimList l).map lowerChar := by
  unfold trimList
  rw [dropWhile_map_lowerChar, ← List.map_reverse, dropWhile_map_lowerChar, ← List.map_reverse]

lemma trimList_idem (l : List Char) : trimList (trimList l) = trimList l := by
  have hu : List.dropWhile wsB (List.dropWhile wsB l) = List.dropWhile wsB l :=
    dropWhile_idem wsB l
  have hvrev : (trimList l).reverse = List.dropWhile wsB (List.dropWhile wsB l).reverse := by
    simp [trimList]
  have hvpref : trimList l <+: List.dropWhile wsB l := by
    have h1 : (trimList l).reverse <:+ (List.dropWhile wsB l).reverse := by
      rw [hvrev]
      exact List.dropWhile_suffix wsB
    exact List.reverse_suffix.mp h1
  have hstep1 : List.dropWhile wsB (trimList l) = trimList l :=
    dropWhile_eq_self_of_pref wsB hu hvpref
  show ((List.dropWhile wsB (trimList l)).reverse.dropWhile wsB).reverse = trimList l
  rw [hstep1, hvrev, dropWhile_idem, ← hvrev, List.reverse_reverse]

lemma normalizeLabel_idem (s : String) :
    normalizeLabel (normalizeLabel s) = normalizeLabel s := by
  show myLower (myTrim (myLower (myTrim s))) = myLower (myTrim s)
  unfold myLower myTrim
  simp only [trimList_map_lowerChar, map_lowerChar_idem, trimList_idem]

lemma normalizeLabel_empty : normalizeLabel "" = "" := rfl

/-! ### The service matcher versus the claim wording -/

lemma bnot_isEmpty_filter (p : α → Bool) (l : List α) :
    Bool.not ((l.filter p).isEmpty) = l.any p := by
  induction l with
  | nil => rfl
  | cons a t ih =>
    by_cases h : p a
    · simp [List.filter_cons, h]
    · simp [List.filter_cons, h, ih]

lemma specExpandAliases_eq_aliasesOf {s : String} (h : ¬ s = "") :
    specExpandAliases s = aliasesOf s := by
  simp [specExpandAliases, aliasesOf, h]

lemma any_const_false (l : List α) : (l.any fun _ => false) = false := by
  induction l with
  | nil => rfl
  | cons a t ih => simp [ih]

/-- The service side of claim C1: on a normalised service label, the
boolean the source computes coincides with the claim’s wording. -/
lemma service_in_bundle_fst (raw : String) (covered : List String) :
    (_service_in_bundle (normalizeLabel raw) covered).1
      = (covered.map normalizeLabel).any
          (fun cn => (specExpandAliases (normalizeLabel raw)).any (fun a => aliasHit a cn)) := by
  unfold _service_in_bundle
  rw [strOr_empty_right, normalizeLabel_idem]
  by_cases hs : normalizeLabel raw = ""
  · rw [if_pos hs, hs]
    show false = (covered.map normalizeLabel).any
      (fun cn => (specExpandAliases "").any (fun a => aliasHit a cn))
    have : ∀ cn, (specExpandAliases "").any (fun a => aliasHit a cn) = false := by
      intro cn
      rfl
    simp only [this]
    rw [any_const_false]
  · rw [if_neg hs, specExpandAliases_eq_aliasesOf hs]
    simp only [svcMatchCore, strOr_empty_right]
    rw [bnot_isEmpty_filter]

/-! ### Reads on injected records -/

lemma pyOr_strV (s : String) : pyOr (.strV s) (.strV "") = .strV s := by
  by_cases h : s = "" <;> simp [pyOr, truthy, h]

lemma pyOr_listV (l : List PyVal) : pyOr (.listV l) (.listV []) = .listV l := by
  by_cases h : l.isEmpty <;> simp_all [pyOr, truthy, List.isEmpty_iff]

lemma pyStr_strV (s : String) : pyStr (.strV s) = s := rfl

lemma map_pyStr_strV (l : List String) : (l.map PyVal.strV).map pyStr = l := by
  induction l with
  | nil => rfl
  | cons a t ih => simp [ih, pyStr_strV]

lemma pyGet_plan (k : Contract) :
    pyGet k.toPy "plan" (.dictV []) = .ok (planPyOf k) := by
  obtain ⟨kp, kq, kr⟩ := k
  cases kp <;> cases kq <;> cases kr <;> rfl

lemma pyGet_prov (k : Contract) :
    pyGet k.toPy "provider_agreement" (.dictV []) = .ok (provPyOf k) := by
  obtain ⟨kp, kq, kr⟩ := k
  cases kp <;> cases kq <;> cases kr <;> rfl

lemma pyGet_episode (k : Contract) :
    pyGet k.toPy "episode" (.dictV []) = .ok (epPyOf k) := by
  obtain ⟨kp, kq, kr⟩ := k
  cases kp <;> cases kq <;> cases kr <;> rfl

lemma pyGet_payer (k : Contract) :
    pyGet (planPyOf k) "payer" (.strV "")
      = .ok (.strV ((k.plan.getD emptyPlan).payer.getD "")) := by
  obtain ⟨kp, kq, kr⟩ := k
  cases kp with
  | none => rfl
  | some p =>
    obtain ⟨f1, f2, f3⟩ := p
    cases f1 <;> cases f2 <;> cases f3 <;> rfl

lemma pyGet_plan_id (k : Contract) :
    pyGet (planPyOf k) "plan_id" (.strV "")
      = .ok (.strV ((k.plan.getD emptyPlan).plan_id.getD "")) := by
  obtain ⟨kp, kq, kr⟩ := k
  cases kp with
  | none => rfl
  | some p =>
    obtain ⟨f1, f2, f3⟩ := p
    cases f1 <;> cases f2 <;> cases f3 <;> rfl

lemma pyGet_product_type (k : Contract) :
    pyGet (planPyOf k) "product_type" (.strV "")
      = .ok (.strV ((k.plan.getD emptyPlan).product_type.getD "")) := by
  obtain ⟨kp, kq, kr⟩ := k
  cases kp with
  | none => rfl
  | some p =>
    obtain ⟨f1, f2, f3⟩ := p
    cases f1 <;> cases f2 <;> cases f3 <;> rfl

lemma pyGet_contract_id (k : Contract) :
    pyGet (provPyOf k) "provider_contract_id" (.strV "UNKNOWN")
      = .ok (.strV ((k.provider_agreement.getD
          emptyProviderAgreement).provider_contract_id.getD "UNKNOWN")) := by
  obtain ⟨kp, kq, kr⟩ := k
  cases kq with
  | none => rfl
  | some p =>
    obtain ⟨f1⟩ := p
    cases f1 <;> rfl

lemma pyGet_episode_code (k : Contract) :
    pyGet (epPyOf k) "episode_code" (.strV "")
      = .ok (.strV ((k.episode.getD emptyEpisode).episode_code.getD "")) := by
  obtain ⟨kp, kq, kr⟩ := k
  cases kr with
  | none => rfl
  | some e =>
    obtain ⟨f1, f2, f3⟩ := e
    cases f1 <;> cases f2 <;> cases f3 <;> rfl

lemma pyGet_covered_services (k : Contract) :
    pyGet (epPyOf k) "covered_services" (.listV [])
      = .ok (.listV (((k.episode.getD emptyEpisode).covered_services.getD []).map .strV)) := by
  obtain ⟨kp, kq, kr⟩ := k
  cases kr with
  | none => rfl
  | some e =>
    obtain ⟨f1, f2, f3⟩ := e
    cases f1 <;> cases f2 <;> cases f3 <;> rfl

lemma pyGet_covered_cpts (k : Contract) :
    pyGet (epPyOf k) "covered_cpts" (.listV [])
      = .ok (.listV (((k.episode.getD emptyEpisode).covered_cpts.getD []).map .strV)) := by
  obtain ⟨kp, kq, kr⟩ := k
  cases kr with
  | none => rfl
  | some e =>
    obtain ⟨f1, f2, f3⟩ := e
    cases f1 <;> cases f2 <;> cases f3 <;> rfl

lemma pyGet_service (c : Claim) :
    pyGet c.toPy "service" .noneV
      = .ok (match c.service with
             | Option.none => .noneV
             | some s => .strV s) := by
  obtain ⟨cs, cc⟩ := c
  cases cs <;> cases cc <;> rfl

lemma pyGet_cpt (c : Claim) :
    pyGet c.toPy "cpt" .noneV
      = .ok (match c.cpt with
             | Option.none => .noneV
             | some s => .strV s) := by
  obtain ⟨cs, cc⟩ := c
  cases cs <;> cases cc <;> rfl

lemma pyStripLower_service (c : Claim) :
    pyStripLower (pyOr (match c.service with
        | Option.none => PyVal.noneV
        | some s => PyVal.strV s) (.strV ""))
      = .ok (normalizeLabel (c.service.getD "")) := by
  obtain ⟨cs, cc⟩ := c
  cases cs with
  | none => rfl
  | some s =>
    by_cases hs : s = "" <;> simp [pyOr, truthy, pyStripLower, hs]

lemma pyStr_cpt (c : Claim) :
    pyStr (pyOr (match c.cpt with
        | Option.none => PyVal.noneV
        | some s => PyVal.strV s) (.strV ""))
      = c.cpt.getD "" := by
  obtain ⟨cs, cc⟩ := c
  cases cc with
  | none => rfl
  | some s =>
    by_cases hs : s = "" <;> simp [pyOr, truthy, pyStr, hs]

lemma iterPy_listV (l : List PyVal) : iterPy (.listV l) = .ok l := rfl

lemma map_norm_pyOr (l : List String) :
    (l.map PyVal.strV).map (fun c => normalizeLabel (pyStr (pyOr c (.strV ""))))
      = l.map (fun c => normalizeLabel c) := by
  induction l with
  | nil => rfl
  | cons a t ih => simp [ih, pyOr_strV, pyStr_strV]

/-- The dynamic service matcher agrees with the typed one on a list of
strings. -/
lemma service_in_bundlePy_toPy (s : String) (l : List String) :
    _service_in_bundlePy s (.listV (l.map .strV)) = .ok (_service_in_bundle s l) := by
  unfold _service_in_bundlePy _service_in_bundle
  simp only [strOr_empty_right]
  by_cases hs : normalizeLabel s = ""
  · simp [hs]
  · simp only [if_neg hs, iterPy_listV, exceptBind_ok, map_norm_pyOr]

/-- Refinement: on well-typed records the dynamic evaluator returns
exactly the dictionary form of the typed evaluator’s result (in
particular, it raises nothing). -/
lemma evalPy_toPy (c : Claim) (k : Contract) :
    _evaluate_against_contractPy c.toPy k.toPy
      = Except.ok (matchResultToPy (_evaluate_against_contract c k)) := by
  simp only [_evaluate_against_contractPy, pyGet_plan, pyGet_prov, pyGet_episode,
    pyGet_payer, pyGet_plan_id, pyGet_product_type, pyGet_contract_id,
    pyGet_episode_code, pyGet_covered_services, pyGet_covered_cpts,
    pyGet_service, pyGet_cpt, exceptBind_ok, pyOr_listV, iterPy_listV,
    map_pyStr_strV, pyStripLower_service, pyStr_cpt, service_in_bundlePy_toPy,
    pyStr_strV]
  simp only [_evaluate_against_contract, matchResultToPy, Option.getD_some]

/-! ### The selector’s sort versus the first-maximum rule -/

lemma insertDesc_ne_nil (x : PyVal) (l : List PyVal) : insertDesc x l ≠ [] := by
  cases l with
  | nil => simp [insertDesc]
  | cons y ys =>
    unfold insertDesc
    split <;> simp

lemma sortDesc_ne_nil {l : List PyVal} (h : l ≠ []) : sortDesc l ≠ [] := by
  cases l with
  | nil => exact absurd rfl h
  | cons x xs => exact insertDesc_ne_nil x (sortDesc xs)

/-- The head of the stable descending sort is the earliest rank-maximal
element. -/
lemma sortDesc_head (l : List PyVal) : (sortDesc l).head? = firstMaxBy l := by
  induction l with
  | nil => rfl
  | cons x xs ih =>
    show (insertDesc x (sortDesc xs)).head? = firstMaxBy (x :: xs)
    cases h : sortDesc xs with
    | nil =>
      have hfm : firstMaxBy xs = Option.none := by rw [← ih, h]; rfl
      simp [insertDesc, firstMaxBy, hfm]
    | cons m t =>
      have hfm : firstMaxBy xs = some m := by rw [← ih, h]; rfl
      have hrhs : firstMaxBy (x :: xs)
          = if rankLtB (pyRank x) (pyRank m) then some m else some x := by
        unfold firstMaxBy
        rw [hfm]
      rw [hrhs]
      unfold insertDesc
      by_cases hc : rankLtB (pyRank x) (pyRank m) <;> simp [hc]

lemma pickBest_eq_firstMax {results : List PyVal} (h : results ≠ []) :
    pickBest results = (firstMaxBy results).getD .noneV := by
  have hie : ¬ results.isEmpty := fun hh => h (List.isEmpty_iff.mp hh)
  unfold pickBest
  rw [if_neg hie, List.headD_eq_head?_getD, sortDesc_head]

lemma mapMEx_evalPy (c : Claim) (cs : List Contract) :
    mapMEx (_evaluate_against_contractPy c.toPy) (cs.map Contract.toPy)
      = .ok (cs.map (fun k => matchResultToPy (_evaluate_against_contract c k))) := by
  induction cs with
  | nil => rfl
  | cons k t ih => simp [mapMEx, evalPy_toPy, ih]

lemma lookup_eq_none_of_not_mem {es : List (String × PyVal)} {k : String}
    (h : k ∉ es.map Prod.fst) : List.lookup k es = Option.none := by
  induction es with
  | nil => rfl
  | cons p t ih =>
    simp only [List.map_cons, List.mem_cons, not_or] at h
    obtain ⟨h1, h2⟩ := h
    have hb : (k == p.1) = false := beq_eq_false_iff_ne.mpr h1
    rw [List.lookup_cons, hb]
    exact ih h2

/-! ## Claim theorems -/

/-- C1 (counterexample): the biconditional fails as stated.  For a claim
with no service and no CPT against a contract whose covered-CPT list
contains the empty string, the claim’s right-hand side holds (the
stringified CPT `""` is an exact member of the covered-CPT list) yet the
evaluator reports `is_in_bundle = false`, because the code additionally
requires the CPT to be truthy (non-empty). -/
theorem evaluator_bundle_iff_cex :
    (_evaluate_against_contract emptyClaim emptyCptContract).is_in_bundle = false
      ∧ claimC1rhs emptyClaim emptyCptContract = true :=
  ⟨rfl, rfl⟩

/-- C1 (amended): for every claim and contract, `is_in_bundle` is true iff
the claim’s stringified CPT is non-empty and an exact member of the
covered-CPT list, or the normalised service label, expanded through the
alias table, stands in a substring-either-direction or
non-empty-token-intersection relation with at least one normalised covered
service label. -/
theorem evaluator_bundle_iff_amended (c : Claim) (k : Contract) :
    (_evaluate_against_contract c k).is_in_bundle
      = (((c.cpt.getD "" != "") && specCptMember c k) || specServiceMatch c k) := by
  simp only [_evaluate_against_contract]
  rw [service_in_bundle_fst]
  rfl

/-- C7: alias expansion is symmetric within a synonym group.  A claim
labelled `pt` service-matches a contract covering `physical therapy`, and
a claim labelled `physical therapy` service-matches a contract covering
`pt rehab`; both are therefore in bundle. -/
theorem alias_symmetry_examples :
    (_evaluate_against_contract ptClaim ptOnlyContract).debug.svc_match = true
      ∧ (_evaluate_against_contract ⟨some "physical therapy", Option.none⟩
          ptRehabContract).debug.svc_match = true
      ∧ (_evaluate_against_contract ptClaim ptOnlyContract).is_in_bundle = true
      ∧ (_evaluate_against_contract ⟨some "physical therapy", Option.none⟩
          ptRehabContract).is_in_bundle = true := by
  decide

/-- C10: when the claim’s CPT is absent or stringifies to the empty
string, the CPT match is false for every contract — even one whose
covered-CPT list contains the empty string — so `is_in_bundle` reduces to
the service match alone. -/
theorem empty_cpt_never_matches (c : Claim) (k : Contract)
    (h : c.cpt = Option.none ∨ c.cpt = some "") :
    (_evaluate_against_contract c k).debug.cpt_match = false
      ∧ (_evaluate_against_contract c k).is_in_bundle
          = (_evaluate_against_contract c k).debug.svc_match := by
  have hc : c.cpt.getD "" = "" := by
    cases h with
    | inl h => rw [h]; rfl
    | inr h => rw [h]; rfl
  simp only [_evaluate_against_contract]
  rw [hc]
  simp

/-- Witness for C10 at a claim whose CPT is present but empty, against the
contract whose covered-CPT list contains the empty string. -/
theorem empty_cpt_never_matches_witness :
    (_evaluate_against_contract blankCptClaim emptyCptContract).debug.cpt_match = false
      ∧ (_evaluate_against_contract blankCptClaim emptyCptContract).is_in_bundle
          = (_evaluate_against_contract blankCptClaim emptyCptContract).debug.svc_match :=
  empty_cpt_never_matches blankCptClaim emptyCptContract (Or.inr rfl)

/-- C5: the Decision Mapper’s table.  `skipped` yields PAY at confidence
0.9; otherwise an in-bundle result yields REJECT with the bundle reason at
0.9; otherwise PAY with the not-covered reason at 0.9.  Consequently the
mapper never produces DENY or ADJUST. -/
theorem mapper_decision_table (claim : Claim) (m : MatchResult) :
    (((recommendation_agent claim m).decision,
      (recommendation_agent claim m).reason,
      (recommendation_agent claim m).confidence)
      = (if m.status = some "skipped" then
           ("PAY", "No applicable bundled episode for this plan/claim.", (9 : ℚ) / 10)
         else if m.is_in_bundle then
           ("REJECT", "Service included in the episode bundle; bill under the episode.",
            (9 : ℚ) / 10)
         else
           ("PAY", "Service not included in covered bundle terms.", (9 : ℚ) / 10)))
      ∧ ((recommendation_agent claim m).decision = "PAY"
          ∨ (recommendation_agent claim m).decision = "REJECT")
      ∧ (recommendation_agent claim m).decision ≠ "DENY"
      ∧ (recommendation_agent claim m).decision ≠ "ADJUST" := by
  unfold recommendation_agent
  by_cases h1 : m.status = some "skipped"
  · simp [h1]
  · by_cases h2 : m.is_in_bundle <;> simp [h1, h2]

/-- C4 (counterexample): in the `skipped` branch the mapper does not carry
`matched_terms` through — it hard-codes the empty list (recommendation.py
line 9), so a skipped result with non-empty matched terms loses them. -/
theorem mapper_passthrough_cex :
    (recommendation_agent emptyClaim skippedResult).matched_terms = []
      ∧ skippedResult.matched_terms = ["physical therapy"] :=
  ⟨rfl, rfl⟩

/-- C4 (amended): `evidence` and all contract/plan identifiers are carried
through unchanged in every branch; `matched_terms` is carried through in
the two non-skipped branches and replaced by the empty list in the
`skipped` branch. -/
theorem mapper_passthrough_amended (claim : Claim) (m : MatchResult) :
    (recommendation_agent claim m).evidence = m.evidence
      ∧ (recommendation_agent claim m).contract_id = m.contract_id
      ∧ (recommendation_agent claim m).plan_id = m.plan_id
      ∧ (recommendation_agent claim m).plan_name = m.plan_name
      ∧ (recommendation_agent claim m).product_type = m.product_type
      ∧ (recommendation_agent claim m).episode_code = m.episode_code
      ∧ (m.status = some "skipped" → (recommendation_agent claim m).matched_terms = [])
      ∧ (¬ m.status = some "skipped" →
          (recommendation_agent claim m).matched_terms = m.matched_terms) := by
  unfold recommendation_agent
  by_cases h1 : m.status = some "skipped"
  · simp [h1]
  · by_cases h2 : m.is_in_bundle <;> simp [h1, h2]

/-- Witness for C4 (amended) at a non-skipped in-bundle result. -/
theorem mapper_passthrough_witness :
    (recommendation_agent emptyClaim okResult).evidence = okResult.evidence
      ∧ (recommendation_agent emptyClaim okResult).matched_terms = okResult.matched_terms :=
  ⟨(mapper_passthrough_amended emptyClaim okResult).1,
   (mapper_passthrough_amended emptyClaim okResult).2.2.2.2.2.2.2 (by decide)⟩

/-- C9 (counterexample): a recommendation whose `decision` key is absent
but whose legacy `outcome` key holds `"pay"` is *not* treated as a
missing/invalid decision — provider_response.py line 14 falls back to
`reco.get("outcome")` before erroring — contradicting the claim as
stated. -/
theorem drafter_decision_gate_cex :
    outcomeOnlyReco.decision = Option.none
      ∧ (provider_response_agent outcomeOnlyReco Option.none).status = "ok"
      ∧ (provider_response_agent outcomeOnlyReco Option.none).status ≠ "error" := by
  refine ⟨rfl, rfl, ?_⟩
  decide

/-- C9 (amended): when the effective decision — the `decision` argument,
else the record’s `decision`, else its legacy `outcome` fallback,
uppercased — is not one of PAY/REJECT/DENY/ADJUST, the Drafter returns the
distinct error result (status `error`, reason `missing_or_invalid_decision`,
no draft) and does not fabricate a decision: it echoes the invalid
uppercased value, or `None` when empty.  When the record’s own `decision`
is one of the four valid values in any letter case, the error is never
returned. -/
theorem drafter_decision_gate_amended (reco : Reco) :
    (¬ VALID.contains (effectiveDecision reco Option.none) →
      (provider_response_agent reco Option.none).status = "error"
        ∧ (provider_response_agent reco Option.none).reason
            = some "missing_or_invalid_decision"
        ∧ (provider_response_agent reco Option.none).draft = Option.none
        ∧ (provider_response_agent reco Option.none).decision
            = (if effectiveDecision reco Option.none = "" then Option.none
               else some (effectiveDecision reco Option.none)))
    ∧ (VALID.contains (myUpper (reco.decision.getD "")) →
        (provider_response_agent reco Option.none).status = "ok") := by
  constructor
  · intro h
    have h' : effectiveDecision reco Option.none ∉ VALID := by simpa using h
    unfold provider_response_agent
    simp [h']
  · intro h
    have hne : ¬ reco.decision.getD "" = "" := by
      intro he
      rw [he] at h
      exact absurd h (by decide)
    have heff : effectiveDecision reco Option.none = myUpper (reco.decision.getD "") := by
      unfold effectiveDecision
      show myUpper (strOr "" (strOr (reco.decision.getD "")
        (strOr (reco.outcome.getD "") ""))) = _
      have h0 : ∀ x : String, strOr "" x = x := fun x => rfl
      rw [h0]
      unfold strOr
      rw [if_neg hne]
    have hval : VALID.contains (effectiveDecision reco Option.none) = true := by
      rw [heff]
      exact h
    simp only [provider_response_agent]
    rw [hval]
    simp only [Bool.not_true, Bool.false_eq_true, if_false]
    split_ifs <;> rfl

/-- Witness for C9 (amended): a record with no decision information
receives the error result; a record whose decision is `"pay"` (lower
case) does not. -/
theorem drafter_decision_gate_witness :
    (provider_response_agent blankReco Option.none).status = "error"
      ∧ (provider_response_agent
          ⟨some "pay", Option.none, Option.none, Option.none, [], Option.none,
           Option.none, Option.none, Option.none, Option.none⟩ Option.none).status = "ok" :=
  ⟨((drafter_decision_gate_amended blankReco).1 (by decide)).1,
   (drafter_decision_gate_amended
      ⟨some "pay", Option.none, Option.none, Option.none, [], Option.none,
       Option.none, Option.none, Option.none, Option.none⟩).2 (by decide)⟩

/-- C3: with zero contracts — empty list, empty mapping, or `None` — the
Selector returns (it does not raise) the structured error result: status
`error`, reason `no_contracts`, `is_in_bundle` false, contract id
`UNKNOWN`, empty matched terms, and the no-contracts evidence string; this
holds for every claim value. -/
theorem selector_no_contracts_error (c : PyVal) :
    bundled_match_agent c (.listV []) = .ok noContractsResult
      ∧ bundled_match_agent c (.dictV []) = .ok noContractsResult
      ∧ bundled_match_agent c .noneV = .ok noContractsResult :=
  ⟨rfl, rfl, rfl⟩

/-- C2 (counterexample): a single contract object of the three-section
shape (its `provider_agreement` carries `provider_contract_id = "C-1"`) is
*not* delegated to the Evaluator: the dispatch looks for a top-level
`"contract_id"` key, which a three-section contract lacks, so the Selector
instead evaluates the three section values as contracts and returns a
no-match result with contract id `UNKNOWN`, while the Evaluator itself
returns an in-bundle result with contract id `C-1`. -/
theorem selector_single_delegation_cex :
    resField (bundled_match_agent ptClaimPy ptContract.toPy) "contract_id"
        = some (.strV "UNKNOWN")
      ∧ resField (_evaluate_against_contractPy ptClaimPy ptContract.toPy) "contract_id"
          = some (.strV "C-1")
      ∧ resField (bundled_match_agent ptClaimPy ptContract.toPy) "is_in_bundle"
          = some (.boolV false)
      ∧ resField (_evaluate_against_contractPy ptClaimPy ptContract.toPy) "is_in_bundle"
          = some (.boolV true)
      ∧ bundled_match_agent ptClaimPy ptContract.toPy
          ≠ _evaluate_against_contractPy ptClaimPy ptContract.toPy := by
  refine ⟨rfl, rfl, rfl, rfl, ?_⟩
  intro he
  have h1 : resField (bundled_match_agent ptClaimPy ptContract.toPy) "contract_id"
      = some (.strV "UNKNOWN") := rfl
  have h2 : resField (_evaluate_against_contractPy ptClaimPy ptContract.toPy) "contract_id"
      = some (.strV "C-1") := rfl
  rw [he, h2] at h1
  injection h1 with h3
  injection h3 with h4
  exact absurd h4 (by decide)

/-- C2 (amended): the single-contract fast path is taken exactly when the
dict input carries a *top-level* `"contract_id"` key (the "flat contract"
shape of the code’s docstring); for any such dict the Selector returns
precisely the Evaluator’s result on it.  A three-section contract object
does not have this key and is treated as a mapping of named contracts
instead. -/
theorem selector_single_delegation_amended (pt_claim : PyVal)
    (es : List (String × PyVal)) (h : (List.lookup "contract_id" es).isSome = true) :
    bundled_match_agent pt_claim (.dictV es)
      = _evaluate_against_contractPy pt_claim (.dictV es) := by
  unfold bundled_match_agent
  simp only [h, if_true]

/-- Witness for C2 (amended) at a flat dict carrying `contract_id`. -/
theorem selector_single_delegation_witness :
    bundled_match_agent (.dictV []) (.dictV [("contract_id", .strV "X")])
      = _evaluate_against_contractPy (.dictV []) (.dictV [("contract_id", .strV "X")]) :=
  selector_single_delegation_amended (.dictV []) [("contract_id", .strV "X")] rfl

lemma map_fst_pairs (m : List (String × Contract)) :
    (m.map (fun p => (p.1, (p.2).toPy))).map Prod.fst = m.map Prod.fst := by
  induction m with
  | nil => rfl
  | cons p t ih => simp [ih]

lemma mapMEx_eval_pairs (c : Claim) (m : List (String × Contract)) :
    mapMEx (_evaluate_against_contractPy c.toPy)
        ((m.map (fun p => (p.1, (p.2).toPy))).map Prod.snd)
      = .ok (m.map (fun p => matchResultToPy (_evaluate_against_contract c p.2))) := by
  induction m with
  | nil => rfl
  | cons p t ih =>
    simp only [List.map_map] at ih
    simp [mapMEx, evalPy_toPy, List.map_map, ih]

/-- C6 (counterexample): a non-empty mapping of contracts whose (arbitrary)
name happens to be `"contract_id"` triggers the single-contract fast path:
the whole mapping is evaluated *as a contract*, producing a no-match
result — not the maximal per-contract Evaluator result, which here is the
single in-bundle evaluation of the named contract. -/
theorem selector_ranking_cex :
    resField (bundled_match_agent ptClaimPy (.dictV [("contract_id", ptContract.toPy)]))
        "is_in_bundle" = some (.boolV false)
      ∧ (firstMaxBy [matchResultToPy (_evaluate_against_contract ptClaim ptContract)]).getD
            .noneV
          = matchResultToPy (_evaluate_against_contract ptClaim ptContract)
      ∧ resField (Except.ok ((firstMaxBy
            [matchResultToPy (_evaluate_against_contract ptClaim ptContract)]).getD .noneV)
            : Except PyErr PyVal) "is_in_bundle" = some (.boolV true)
      ∧ bundled_match_agent ptClaimPy (.dictV [("contract_id", ptContract.toPy)])
          ≠ Except.ok ((firstMaxBy
              [matchResultToPy (_evaluate_against_contract ptClaim ptContract)]).getD .noneV) := by
  refine ⟨rfl, rfl, rfl, ?_⟩
  intro he
  have h1 : resField (bundled_match_agent ptClaimPy
      (.dictV [("contract_id", ptContract.toPy)])) "is_in_bundle"
      = some (.boolV false) := rfl
  have h2 : resField (Except.ok ((firstMaxBy
      [matchResultToPy (_evaluate_against_contract ptClaim ptContract)]).getD .noneV)
      : Except PyErr PyVal) "is_in_bundle" = some (.boolV true) := rfl
  rw [he, h2] at h1
  injection h1 with h3
  injection h3 with h4
  exact absurd h4 (by decide)

/-- C6 (amended): for every claim, every non-empty *sequence* of
contracts, and every non-empty *mapping* of contracts none of whose names
is the reserved dispatch key `"contract_id"`, the Selector returns the
earliest per-contract Evaluator result that is maximal under
`(is_in_bundle, count(matched_terms))`, both descending — in-bundle
results outrank not-in-bundle ones regardless of matched-term counts, more
matched terms outrank fewer within the same status, and remaining ties go
to the earliest evaluation (the sort is stable). -/
theorem selector_ranking_amended (c : Claim) (cs : List Contract) (hcs : cs ≠ [])
    (m : List (String × Contract)) (hm : m ≠ [])
    (hk : "contract_id" ∉ m.map Prod.fst) :
    bundled_match_agent c.toPy (.listV (cs.map Contract.toPy))
        = .ok ((firstMaxBy
            (cs.map (fun k => matchResultToPy (_evaluate_against_contract c k)))).getD .noneV)
      ∧ bundled_match_agent c.toPy (.dictV (m.map (fun p => (p.1, (p.2).toPy))))
        = .ok ((firstMaxBy
            (m.map (fun p => matchResultToPy (_evaluate_against_contract c p.2)))).getD
            .noneV) := by
  constructor
  · have hres : cs.map (fun k => matchResultToPy (_evaluate_against_contract c k)) ≠ [] := by
      intro hh
      exact hcs (List.map_eq_nil_iff.mp hh)
    simp only [bundled_match_agent]
    rw [pyOr_listV]
    simp only [iterPy_listV, exceptBind_ok, mapMEx_evalPy c cs,
      pickBest_eq_firstMax hres]
  · have hres : m.map (fun p => matchResultToPy (_evaluate_against_contract c p.2)) ≠ [] := by
      intro hh
      exact hm (List.map_eq_nil_iff.mp hh)
    have hl : List.lookup "contract_id" (m.map (fun p => (p.1, (p.2).toPy)))
        = Option.none := by
      apply lookup_eq_none_of_not_mem
      rw [map_fst_pairs]
      exact hk
    simp only [bundled_match_agent]
    simp only [hl, Option.isSome_none, Bool.false_eq_true, if_false,
      mapMEx_eval_pairs c m, exceptBind_ok, pickBest_eq_firstMax hres]

/-- Witness for C6 (amended) at a one-element sequence and a one-element
mapping named `"a"`. -/
theorem selector_ranking_witness :
    bundled_match_agent ptClaim.toPy (.listV ([ptContract].map Contract.toPy))
        = .ok ((firstMaxBy
            ([ptContract].map
              (fun k => matchResultToPy (_evaluate_against_contract ptClaim k)))).getD .noneV)
      ∧ bundled_match_agent ptClaim.toPy
          (.dictV (([("a", ptContract)]).map (fun p => (p.1, (p.2).toPy))))
        = .ok ((firstMaxBy
            (([("a", ptContract)]).map
              (fun p => matchResultToPy (_evaluate_against_contract ptClaim p.2)))).getD
            .noneV) :=
  selector_ranking_amended ptClaim [ptContract] (List.cons_ne_nil _ _)
    [("a", ptContract)] (List.cons_ne_nil _ _) (by decide)

/-- C8 (counterexample): the Evaluator is not exception-free on malformed
records.  A contract whose present `plan` section is the integer `5`
raises `AttributeError` (`5` has no `.get`), where the claim requires a
degraded default instead. -/
theorem evaluator_total_cex :
    _evaluate_against_contractPy (.dictV []) (.dictV [("plan", .intV 5)])
      = .error .attributeError := rfl

/-- C8 (amended): on every claim record and contract record whose present
fields are well-typed (sections are objects, covered fields are lists of
strings, labels are strings) — with any subset of fields missing — the
Evaluator completes without an exception and returns the well-formed
MatchResult of the typed semantics, every missing field degraded to its
documented default (empty string, empty list, `UNKNOWN`).  A present but
mis-typed section instead raises, as the counterexample shows. -/
theorem evaluator_total_amended (c : Claim) (k : Contract) :
    _evaluate_against_contractPy c.toPy k.toPy
      = Except.ok (matchResultToPy (_evaluate_against_contract c k)) :=
  evalPy_toPy c k
